import Mathlib

/-!
# Shallow embedding of `code/register/aws_sso_register.py`

The script drives a browser to create users in AWS IAM Identity Center:
it logs in, loops `count` times creating a user with randomly generated
identity data, scrapes a one-time password from a confirmation dialog, and
appends `email----password` lines to a local file.

The embedding models the external world (browser, DOM, file system,
randomness) as explicit environment parameters: every point where the
script consults the outside world (an element lookup that may raise, a
scrape that may find nothing, a file write that may fail, a random choice)
becomes a field of an environment record, and the control flow of the script is
transcribed as total Lean functions over those records.  Python `dict`s
become association lists of `Value`s, Python truthiness becomes `truthy`,
and uncaught exceptions at top level become an `Except` result.
-/

namespace AwsSsoRegister

/-- A Python value as it occurs in the user-record dicts of this script:
strings, booleans and `None`. -/
inductive Value where
  | vStr : String → Value
  | vBool : Bool → Value
  | vNone : Value
deriving DecidableEq, Repr

/-- A Python dict with string keys, as an association list (all dicts in
the script are built with distinct literal keys). -/
abbrev Dict := List (String × Value)

/-- Python `d.get(k)` without default: `some v` when the key is present. -/
def Dict.get (d : Dict) (k : String) : Option Value :=
  (d.find? (fun kv => kv.1 = k)).map (fun kv => kv.2)

/-- Python `d.get(k)` as evaluated in an `or` chain: a missing key yields `None`. -/
def Dict.getV (d : Dict) (k : String) : Value :=
  (Dict.get d k).getD .vNone

/-- Python `d[k]`: raises `KeyError` when the key is missing. -/
def Dict.item (d : Dict) (k : String) : Except String Value :=
  match Dict.get d k with
  | some v => .ok v
  | none => .error ("KeyError: " ++ k)

/-- Python truthiness of a `Value`. -/
def truthy : Value → Bool
  | .vStr s => s ≠ ""
  | .vBool b => b
  | .vNone => false

/-- Python `a or b` on values. -/
def pyOr (a b : Value) : Value :=
  if truthy a then a else b

/-- Python `str(v)` / f-string interpolation of a `Value`. -/
def pyStr : Value → String
  | .vStr s => s
  | .vBool true => "True"
  | .vBool false => "False"
  | .vNone => "None"

/-! ## Identity generation (`generate_random_name`, `generate_random_email`) -/

/-- The fixed `first_names` pool. -/
def first_names : List String :=
  ["John", "Jane", "Alex", "Chris", "Sam", "Taylor", "Jordan", "Morgan", "Casey", "Riley"]

/-- The fixed `last_names` pool. -/
def last_names : List String :=
  ["Smith", "Johnson", "Williams", "Brown", "Jones", "Garcia", "Miller", "Davis", "Wilson"]

/-- The alphabet `string.ascii_lowercase + string.digits` used for email
local parts. -/
def emailChars : List Char :=
  "abcdefghijklmnopqrstuvwxyz0123456789".toList

/-- Models `random.choice(pool)` with the randomness made explicit: `seed`
selects an index into the pool. -/
def pyChoice {α : Type} (pool : List α) (dflt : α) (seed : Nat) : α :=
  pool.getD (seed % pool.length) dflt

/-- Transcribes `generate_random_name()`: one draw from each fixed pool. -/
def generate_random_name (seedFirst seedLast : Nat) : String × String :=
  (pyChoice first_names "" seedFirst, pyChoice last_names "" seedLast)

/-- Transcribes `generate_random_email` with default domain: ten `random.choice`
draws from `emailChars`, then `f"{username}@{domain}"`. -/
def generate_random_email (seed : Fin 10 → Nat) (domain : String) : String :=
  let username := String.mk ((List.finRange 10).map (fun i => pyChoice emailChars 'a' (seed i)))
  username ++ "@" ++ domain

/-! ## Persistence (`save_user_to_file`) -/

/-- Outcome of the `open`/`write` in `save_user_to_file`: either the
append succeeds or some `Exception` with message `msg` is raised. -/
inductive WriteOutcome where
  | ok
  | fail (msg : String)
deriving DecidableEq, Repr

/-- The line built inside `save_user_to_file`:
the email falls back from the `Username` key to the `Email` key to the
empty string, the password falls back from the `One-time_password` key
to the empty string (Python `or`), and the line is
`email ++ "----" ++ password` plus a newline. -/
def userLine (user_info : Dict) : String :=
  let email := pyOr (pyOr (Dict.getV user_info "Username") (Dict.getV user_info "Email")) (.vStr "")
  let password := pyOr (Dict.getV user_info "One-time_password") (.vStr "")
  pyStr email ++ "----" ++ pyStr password ++ "\n"

/-- Transcribes `save_user_to_file(user_info)`: appends `userLine` to the file; any
exception is caught and turned into a `[WARN]` log line.  Returns the new
file content and the log message; it never propagates an exception. -/
def save_user_to_file (w : WriteOutcome) (user_info : Dict) (file : String) : String × String :=
  match w with
  | .ok => (file ++ userLine user_info, "[OK] 用户信息已保存到 created_users.txt")
  | .fail msg => (file, "[WARN] 保存用户信息失败: " ++ msg)

/-! ## Login (`login_aws_console`) -/

/-- Environment of one `login_aws_console` call: whether any of the
element lookups / clicks inside its `try` raises, and the value of
`driver.current_url` at the check. -/
structure LoginEnv where
  raises : Bool
  currentUrl : String
deriving DecidableEq, Repr

/-- Whether `needle` occurs as a contiguous sublist of `haystack`. -/
def listContainsSub : List Char → List Char → Bool
  | [], needle => needle.isEmpty
  | h :: t, needle => needle.isPrefixOf (h :: t) || listContainsSub t needle

/-- Python substring test, `needle in haystack`. -/
def strContains (haystack needle : String) : Bool :=
  listContainsSub haystack.toList needle.toList

/-- Transcribes `login_aws_console`: on any exception it logs and returns `False`;
otherwise it returns `True` in both branches of the
`"console.aws.amazon.com" in driver.current_url` check (the `else`
branch logs a warning but still returns `True`). -/
def login_aws_console (e : LoginEnv) : Bool :=
  if e.raises then false
  else if strContains e.currentUrl "console.aws.amazon.com" then true
  else true

/-! ## User creation (`create_user_via_browser`) -/

/-- Environment of one `create_user_via_browser` call:
`raises` — an exception escapes to the outer `except` of the function (which
logs, screenshots and returns `False`);
`buttonFound` — some of the three lookup methods located the
`Add user` button (otherwise the function returns `False`);
`otpScraped` — the value of `otp_password` after the scraping cascade
(`none` when no heuristic found a password). -/
structure CreateEnv where
  raises : Bool
  buttonFound : Bool
  otpScraped : Option String
deriving DecidableEq, Repr

/-- Python `or` of `otp_password` and the empty string, where
`otp_password : Option String` (with `none` standing for `None`). -/
def pyOrEmpty : Option String → String
  | some s => if s = "" then "" else s
  | none => ""

/-- Transcribes `create_user_via_browser(driver, wait, email, given_name, family_name)`:
returns `False` (here `none`) when the `Add user` button is never found or
when an exception reaches the outer `except`; otherwise returns the
`result_data` dict literal built at the end of the `try` block. -/
def create_user_via_browser (env : CreateEnv) (email given_name family_name : String) :
    Option Dict :=
  if env.raises then none
  else if ¬ env.buttonFound then none
  else some
    [("success", .vBool true),
     ("Username", .vStr email),
     ("Name", .vStr (given_name ++ " " ++ family_name)),
     ("First_name", .vStr given_name),
     ("Last_name", .vStr family_name),
     ("One-time_password", .vStr (pyOrEmpty env.otpScraped))]

/-! ## Registration loop (`register_users`) -/

/-- Environment of one loop iteration of `register_users`: the random
seeds consumed by `generate_random_email` / `generate_random_name`, the
environment of the `create_user_via_browser` call, and the outcome of
the file write in `save_user_to_file`. -/
structure IterEnv where
  emailSeed : Fin 10 → Nat
  firstSeed : Nat
  lastSeed : Nat
  createEnv : CreateEnv
  writeOutcome : WriteOutcome

/-- Environment of a whole `register_users` run: whether the
`import undetected_chromedriver / selenium` block succeeds, the login
environment of the login call, and the environment of each iteration. -/
structure Env where
  importOk : Bool
  loginEnv : LoginEnv
  iters : Nat → IterEnv

/-- Python truthiness of the result of `create_user_via_browser`:
`False` is falsy, a dict is truthy iff non-empty. -/
def resultTruthy : Option Dict → Bool
  | none => false
  | some d => ¬ d.isEmpty

/-- One iteration of the `for i in range(count)` loop, acting on the
accumulator `(created_users, file)`:
when the result is truthy, is a dict and its `success` value is truthy,
the full result dict is appended and saved minus the `success` key;
when the result is merely truthy (legacy-`True` compatibility branch) a
three-key dict whose `One-time_password` is `None` is appended and
saved; otherwise nothing happens. -/
def registerStep (ie : IterEnv) (acc : List Dict × String) : List Dict × String :=
  let email := generate_random_email ie.emailSeed "gmail.com"
  let gf := generate_random_name ie.firstSeed ie.lastSeed
  let result := create_user_via_browser ie.createEnv email gf.1 gf.2
  match result with
  | some d =>
    if resultTruthy (some d) ∧ truthy (Dict.getV d "success") then
      let user_info := d.filter (fun kv => kv.1 ≠ "success")
      (acc.1 ++ [d], (save_user_to_file ie.writeOutcome user_info acc.2).1)
    else if resultTruthy (some d) then
      let user_info : Dict :=
        [("Username", .vStr email),
         ("Name", .vStr (gf.1 ++ " " ++ gf.2)),
         ("One-time_password", .vNone)]
      (acc.1 ++ [user_info], (save_user_to_file ie.writeOutcome user_info acc.2).1)
    else acc
  | none => acc

/-- Transcribes `register_users(count, ...)`: returns `[]` when the
dependency imports fail, `[]` when `login_aws_console` returns `False`,
else runs the loop.  The result pairs `created_users` with the final content of
the output file (threaded through `save_user_to_file`). -/
def register_users (env : Env) (count : Nat) (file : String) : List Dict × String :=
  if ¬ env.importOk then ([], file)
  else if ¬ login_aws_console env.loginEnv then ([], file)
  else (List.range count).foldl (fun acc i => registerStep (env.iters i) acc) ([], file)

/-! ## Command line (the argparse declarations in `main`)

The parser declares `--username` / `-u` and `--password` / `-p`
(required, `type=str`), `--count` / `-c` (`type=int`, `default=1`) and `--headless`
(a boolean switch).  We model the argparse handling of these
canonically spelled tokens: an option expecting a value rejects a
following token that itself looks like an option (the argparse
error for a missing argument), an unrecognized token is an error, and
a missing required option is an error. -/

/-- Test used by argparse on a would-be value token, true when it looks
like an option:
starts with `-` and is not a negative-number-like token. -/
def isOptionLike (s : String) : Bool :=
  match s.toList with
  | '-' :: c :: _ => ¬ c.isDigit
  | _ => false

/-- Decimal digits to a number, `none` on any non-digit or on the empty
list. -/
def digitsToNat : List Char → Option Nat
  | [] => none
  | l => l.foldl
      (fun acc c =>
        match acc with
        | none => none
        | some n => if c.isDigit then some (n * 10 + (c.toNat - 48)) else none)
      (some 0)

/-- Python `int(s)` on a canonical literal: optional sign, then decimal
digits; anything else raises (here `none`), which argparse reports as
`invalid int value`. -/
def pyInt (s : String) : Option Int :=
  match s.toList with
  | '-' :: rest => (digitsToNat rest).map (fun n => -(n : Int))
  | '+' :: rest => (digitsToNat rest).map (fun n => (n : Int))
  | l => (digitsToNat l).map (fun n => (n : Int))

/-- The parsed namespace being accumulated. -/
structure ParseSt where
  username : Option String
  password : Option String
  count : Option Int
  headless : Bool
deriving DecidableEq, Repr

/-- Which option, if any, is waiting for its value token. -/
inductive Pending where
  | idle
  | wantUser
  | wantPass
  | wantCount
deriving DecidableEq, Repr

/-- Token-by-token scan of the declared options. -/
def parseTokens : List String → Pending → ParseSt → Option ParseSt
  | [], .idle, st => some st
  | [], _, _ => none
  | t :: rest, .idle, st =>
    if t = "--username" ∨ t = "-u" then parseTokens rest .wantUser st
    else if t = "--password" ∨ t = "-p" then parseTokens rest .wantPass st
    else if t = "--count" ∨ t = "-c" then parseTokens rest .wantCount st
    else if t = "--headless" then parseTokens rest .idle { st with headless := true }
    else none
  | t :: rest, .wantUser, st =>
    if isOptionLike t then none
    else parseTokens rest .idle { st with username := some t }
  | t :: rest, .wantPass, st =>
    if isOptionLike t then none
    else parseTokens rest .idle { st with password := some t }
  | t :: rest, .wantCount, st =>
    if isOptionLike t then none
    else match pyInt t with
      | some n => parseTokens rest .idle { st with count := some n }
      | none => none

/-- The `args` namespace after a successful parse. -/
structure Args where
  username : String
  password : String
  count : Int
  headless : Bool
deriving DecidableEq, Repr

/-- Transcribes `parser.parse_args()`: scan the tokens, then fail unless both
required options were supplied; `count` falls back to its default `1`. -/
def parse_args (toks : List String) : Option Args :=
  match parseTokens toks .idle ⟨none, none, none, false⟩ with
  | some st =>
    match st.username, st.password with
    | some u, some p => some ⟨u, p, st.count.getD 1, st.headless⟩
    | _, _ => none
  | none => none

/-! ## `main` and the process exit code -/

/-- The summary loop at the end of `main`:
for each user record it subscripts the record at key `email` and at
key `name` — `KeyError`-raising lookups — while the final lookup of key
`otp` uses `get` and cannot raise. -/
def printSummary : List Dict → Except String Unit
  | [] => .ok ()
  | d :: rest => do
    let _ ← Dict.item d "email"
    let _ ← Dict.item d "name"
    printSummary rest

/-- The process exit code of `sys.exit(main())`: `2` when argparse
rejects the command line (argparse calls `sys.exit(2)`), `1` when an
exception escapes `main` (the CPython exit code for an unhandled
exception), otherwise the return value of `main`:
`0 if created_users else 1`.  The summary loop runs only
`if created_users:`. -/
def main_exit (toks : List String) (env : Env) (file : String) : Int :=
  match parse_args toks with
  | none => 2
  | some args =>
    let created_users := (register_users env args.count.toNat file).1
    if created_users.isEmpty then 1
    else
      match printSummary created_users with
      | .error _ => 1
      | .ok _ => 0

/-! ## Concrete demonstration environments -/

/-- An iteration in which the browser succeeds end to end but no
one-time password is scraped. -/
def demoIter : IterEnv := ⟨fun _ => 0, 0, 0, ⟨false, true, none⟩, .ok⟩

/-- A run whose dependency import and login succeed and whose every
iteration is `demoIter`. -/
def demoEnv : Env :=
  ⟨true, ⟨false, "https://us-east-1.console.aws.amazon.com/x"⟩, fun _ => demoIter⟩

/-- A run whose login attempt raises, so `login_aws_console` returns
`False`. -/
def demoLoginFailEnv : Env := ⟨true, ⟨true, ""⟩, fun _ => demoIter⟩

/-- A run in which importing the browser-automation dependencies
fails. -/
def demoImportFailEnv : Env := ⟨false, ⟨false, ""⟩, fun _ => demoIter⟩

/-! ## Supporting lemmas -/

theorem registerStep_length_le (ie : IterEnv) (acc : List Dict × String) :
    (registerStep ie acc).1.length ≤ acc.1.length + 1 := by
  simp only [registerStep]
  split
  · split
    · simp
    · split
      · simp
      · exact Nat.le_succ _
  · exact Nat.le_succ _

theorem registerFold_length_le (its : Nat → IterEnv) :
    ∀ (l : List Nat) (acc : List Dict × String),
      ((l.foldl (fun a i => registerStep (its i) a) acc).1.length ≤ acc.1.length + l.length) := by
  intro l
  induction l with
  | nil => intro acc; simp
  | cons i t ih =>
    intro acc
    simp only [List.foldl_cons, List.length_cons]
    have h1 := registerStep_length_le (its i) acc
    have h2 := ih (registerStep (its i) acc)
    omega

/-! ## Claims -/

/-- C1: the spec states the process exit code is 0 when at least one
user was created.  The code intends this (`return 0 if created_users
else 1`) but the summary loop that runs first reads `user` at key
`email` and at key `name`, keys that no record built by this program
ever has (records carry `Username` / `Name`), so a run that creates a
user raises `KeyError` and the process exits with code 1, never 0. -/
theorem main_exit_code_bug :
    (register_users demoEnv 1 "").1.length = 1 ∧
    printSummary (register_users demoEnv 1 "").1 = .error "KeyError: email" ∧
    main_exit ["--username", "x", "--password", "y"] demoEnv "" = 1 := by
  refine ⟨by decide, rfl, by decide⟩

/-- C8: `create_user_via_browser` returns either `False` or a dict
whose `success` is `True` (never `False`), whose `Username` is the
email argument, whose `First_name` / `Last_name` are the name
arguments, and whose `One-time_password` is a (possibly empty)
string. -/
theorem create_user_via_browser_result_shape (env : CreateEnv)
    (email given_name family_name : String) :
    create_user_via_browser env email given_name family_name = none ∨
    ∃ d : Dict,
      create_user_via_browser env email given_name family_name = some d ∧
      Dict.get d "success" = some (.vBool true) ∧
      Dict.get d "success" ≠ some (.vBool false) ∧
      Dict.get d "Username" = some (.vStr email) ∧
      Dict.get d "First_name" = some (.vStr given_name) ∧
      Dict.get d "Last_name" = some (.vStr family_name) ∧
      ∃ otp : String, Dict.get d "One-time_password" = some (.vStr otp) := by
  unfold create_user_via_browser
  split
  · exact Or.inl rfl
  split
  · exact Or.inl rfl
  · refine Or.inr ⟨_, rfl, rfl, ?_, rfl, rfl, rfl, _, rfl⟩
    intro hcontra
    simp [Dict.get, List.find?] at hcontra

/-- C8 witness: the result shape at a concrete successful environment. -/
theorem create_user_via_browser_result_shape_witness :
    create_user_via_browser ⟨false, true, none⟩ "e@x" "G" "F" = none ∨
    ∃ d : Dict,
      create_user_via_browser ⟨false, true, none⟩ "e@x" "G" "F" = some d ∧
      Dict.get d "success" = some (.vBool true) ∧
      Dict.get d "success" ≠ some (.vBool false) ∧
      Dict.get d "Username" = some (.vStr "e@x") ∧
      Dict.get d "First_name" = some (.vStr "G") ∧
      Dict.get d "Last_name" = some (.vStr "F") ∧
      ∃ otp : String, Dict.get d "One-time_password" = some (.vStr otp) :=
  create_user_via_browser_result_shape ⟨false, true, none⟩ "e@x" "G" "F"

/-- C9: `register_users` returns at most `count` records: each loop
iteration appends at most one record, and a failed
`create_user_via_browser` call appends none. -/
theorem register_users_length_le_count (env : Env) (count : Nat) (file : String) :
    (register_users env count file).1.length ≤ count := by
  unfold register_users
  split
  · simp
  · split
    · simp
    · have := registerFold_length_le env.iters (List.range count) ([], file)
      simpa using this

/-- C4: `login_aws_console` yields a single boolean; when it is
`False`, `register_users` returns `[]` immediately, leaving the output
file untouched and attempting no user creation; and when it is `True`
no outcome of an iteration terminates the run — every further iteration of
the loop is executed on top of the previous result, whatever the
previous iterations did. -/
theorem login_failure_aborts_run (env : Env) (count n : Nat) (file : String)
    (himp : env.importOk = true) :
    (login_aws_console env.loginEnv = false →
      register_users env count file = ([], file)) ∧
    (login_aws_console env.loginEnv = true →
      register_users env (n + 1) file =
        registerStep (env.iters n) (register_users env n file)) := by
  constructor
  · intro h
    unfold register_users
    simp [himp, h]
  · intro h
    unfold register_users
    simp [himp, h, List.range_succ]

/-- C4 witness: a concrete run whose login raises. -/
theorem login_failure_aborts_run_witness :
    (login_aws_console demoLoginFailEnv.loginEnv = false →
      register_users demoLoginFailEnv 3 "" = ([], "")) ∧
    (login_aws_console demoLoginFailEnv.loginEnv = true →
      register_users demoLoginFailEnv (0 + 1) "" =
        registerStep (demoLoginFailEnv.iters 0) (register_users demoLoginFailEnv 0 "")) :=
  login_failure_aborts_run demoLoginFailEnv 3 0 "" rfl

/-- C10: when the `import undetected_chromedriver / selenium` block
fails, `register_users` catches the `ImportError` and returns `[]`
without writing any output, and the process then exits with code 1. -/
theorem import_failure_returns_empty (env : Env) (count : Nat) (file : String)
    (toks : List String) (a : Args)
    (himp : env.importOk = false) (hp : parse_args toks = some a) :
    register_users env count file = ([], file) ∧ main_exit toks env file = 1 := by
  have hreg : ∀ c : Nat, register_users env c file = ([], file) := by
    intro c
    unfold register_users
    simp [himp]
  refine ⟨hreg count, ?_⟩
  unfold main_exit
  rw [hp]
  simp [hreg]

/-- C10 witness: a concrete run whose dependency import fails. -/
theorem import_failure_returns_empty_witness :
    register_users demoImportFailEnv 2 "" = ([], "") ∧
    main_exit ["--username", "x", "--password", "y"] demoImportFailEnv "" = 1 :=
  import_failure_returns_empty demoImportFailEnv 2 ""
    ["--username", "x", "--password", "y"] ⟨"x", "y", 1, false⟩ rfl (by decide)

/-- Replace the file-write outcome of every iteration, leaving the rest of
the environment unchanged. -/
def setWrites (env : Env) (wo : Nat → WriteOutcome) : Env :=
  { env with iters := fun i => { env.iters i with writeOutcome := wo i } }

theorem registerStep_fst_ignores_write (ie : IterEnv) (w : WriteOutcome)
    (us : List Dict) (f f' : String) :
    (registerStep { ie with writeOutcome := w } (us, f)).1 =
      (registerStep ie (us, f')).1 := by
  simp only [registerStep]
  split
  · split
    · rfl
    · split
      · rfl
      · rfl
  · rfl

theorem registerFold_fst_ignores_writes (its : Nat → IterEnv) (wo wo' : Nat → WriteOutcome) :
    ∀ (l : List Nat) (us : List Dict) (f f' : String),
      ((l.foldl (fun a i => registerStep { its i with writeOutcome := wo i } a) (us, f)).1 =
       (l.foldl (fun a i => registerStep { its i with writeOutcome := wo' i } a) (us, f')).1) := by
  intro l
  induction l with
  | nil => intro us f f'; rfl
  | cons i t ih =>
    intro us f f'
    simp only [List.foldl_cons]
    have hfst : (registerStep { its i with writeOutcome := wo i } (us, f)).1 =
        (registerStep { its i with writeOutcome := wo' i } (us, f')).1 := by
      rw [registerStep_fst_ignores_write]
      exact (registerStep_fst_ignores_write (its i) (wo' i) us f' ((registerStep { its i with writeOutcome := wo' i } (us, f')).2)).symm
    have h1 := ih (registerStep { its i with writeOutcome := wo i } (us, f)).1
      (registerStep { its i with writeOutcome := wo i } (us, f)).2
      (registerStep { its i with writeOutcome := wo' i } (us, f')).2
    calc (t.foldl (fun a i => registerStep { its i with writeOutcome := wo i } a)
            (registerStep { its i with writeOutcome := wo i } (us, f))).1
        = (t.foldl (fun a i => registerStep { its i with writeOutcome := wo i } a)
            ((registerStep { its i with writeOutcome := wo i } (us, f)).1,
             (registerStep { its i with writeOutcome := wo i } (us, f)).2)).1 := by rw [Prod.mk.eta]
      _ = (t.foldl (fun a i => registerStep { its i with writeOutcome := wo' i } a)
            ((registerStep { its i with writeOutcome := wo i } (us, f)).1,
             (registerStep { its i with writeOutcome := wo' i } (us, f')).2)).1 := h1
      _ = (t.foldl (fun a i => registerStep { its i with writeOutcome := wo' i } a)
            ((registerStep { its i with writeOutcome := wo' i } (us, f')).1,
             (registerStep { its i with writeOutcome := wo' i } (us, f')).2)).1 := by rw [hfst]
      _ = (t.foldl (fun a i => registerStep { its i with writeOutcome := wo' i } a)
            (registerStep { its i with writeOutcome := wo' i } (us, f'))).1 := by rw [Prod.mk.eta]

/-- C5: `save_user_to_file` never propagates an exception: a failing
write leaves the file unchanged and produces only a warning log line,
and the `created_users` list computed by `register_users` is the same
whatever the write outcomes of the individual iterations are. -/
theorem save_failure_swallowed (env : Env) (wo wo' : Nat → WriteOutcome)
    (count : Nat) (file msg : String) (ui : Dict) :
    save_user_to_file (.fail msg) ui file = (file, "[WARN] 保存用户信息失败: " ++ msg) ∧
    (register_users (setWrites env wo) count file).1 =
      (register_users (setWrites env wo') count file).1 := by
  refine ⟨rfl, ?_⟩
  unfold register_users setWrites
  simp only
  split
  · rfl
  · split
    · rfl
    · exact registerFold_fst_ignores_writes env.iters wo wo' (List.range count) [] file file

theorem pyOr_of_truthy (a b : Value) (h : truthy a = true) : pyOr a b = a := by
  simp [pyOr, h]

theorem pyOr_of_falsy (a b : Value) (h : truthy a = false) : pyOr a b = b := by
  simp [pyOr, h]

theorem truthy_vStr_of_ne (s : String) (h : s ≠ "") : truthy (.vStr s) = true := by
  simp [truthy, h]

/-- C2: a successful `save_user_to_file` call appends exactly one line
`email ++ "----" ++ password ++ "\n"` to the file, where `email` is the
`Username` of the record, falling back to `Email`, then to the empty string
(a fallback is taken when the field is absent, `None` or empty — Python
truthiness), and `password` is the `One-time_password` of the record with
the empty string as fallback; and for every write outcome the existing
content is preserved (append mode): the result is the old file with at
most that one line appended. -/
theorem save_user_appends_one_record (ui : Dict) (file : String) (w : WriteOutcome) :
    ∃ email password : String,
      (save_user_to_file .ok ui file).1 = file ++ (email ++ "----" ++ password ++ "\n") ∧
      (∀ s : String, s ≠ "" → Dict.getV ui "Username" = .vStr s → email = s) ∧
      (truthy (Dict.getV ui "Username") = false →
        ∀ s : String, s ≠ "" → Dict.getV ui "Email" = .vStr s → email = s) ∧
      (truthy (Dict.getV ui "Username") = false →
        truthy (Dict.getV ui "Email") = false → email = "") ∧
      (∀ s : String, s ≠ "" → Dict.getV ui "One-time_password" = .vStr s → password = s) ∧
      (truthy (Dict.getV ui "One-time_password") = false → password = "") ∧
      ((save_user_to_file w ui file).1 = file ∨
        (save_user_to_file w ui file).1 = file ++ (email ++ "----" ++ password ++ "\n")) := by
  refine ⟨pyStr (pyOr (pyOr (Dict.getV ui "Username") (Dict.getV ui "Email")) (.vStr "")),
    pyStr (pyOr (Dict.getV ui "One-time_password") (.vStr "")), ?_, ?_, ?_, ?_, ?_, ?_, ?_⟩
  · rfl
  · intro s hs hU
    rw [hU, pyOr_of_truthy _ _ (truthy_vStr_of_ne s hs),
      pyOr_of_truthy _ _ (truthy_vStr_of_ne s hs)]
    rfl
  · intro hU s hs hE
    rw [pyOr_of_falsy _ _ hU, hE, pyOr_of_truthy _ _ (truthy_vStr_of_ne s hs)]
    rfl
  · intro hU hE
    rw [pyOr_of_falsy _ _ hU, pyOr_of_falsy _ _ hE]
    rfl
  · intro s hs hP
    rw [hP, pyOr_of_truthy _ _ (truthy_vStr_of_ne s hs)]
    rfl
  · intro hP
    rw [pyOr_of_falsy _ _ hP]
    rfl
  · cases w with
    | ok => exact Or.inr rfl
    | fail msg => exact Or.inl rfl

/-- C2 witness: a concrete record with a `Username` and a scraped
password, appended to a non-empty file. -/
theorem save_user_appends_one_record_witness :
    ∃ email password : String,
      (save_user_to_file .ok
        [("Username", .vStr "a@b.c"), ("One-time_password", .vStr "pw1")] "old\n").1 =
        "old\n" ++ (email ++ "----" ++ password ++ "\n") ∧
      (∀ s : String, s ≠ "" →
        Dict.getV [("Username", .vStr "a@b.c"), ("One-time_password", .vStr "pw1")] "Username" = .vStr s →
        email = s) ∧
      (truthy (Dict.getV [("Username", .vStr "a@b.c"), ("One-time_password", .vStr "pw1")] "Username") = false →
        ∀ s : String, s ≠ "" →
        Dict.getV [("Username", .vStr "a@b.c"), ("One-time_password", .vStr "pw1")] "Email" = .vStr s →
        email = s) ∧
      (truthy (Dict.getV [("Username", .vStr "a@b.c"), ("One-time_password", .vStr "pw1")] "Username") = false →
        truthy (Dict.getV [("Username", .vStr "a@b.c"), ("One-time_password", .vStr "pw1")] "Email") = false →
        email = "") ∧
      (∀ s : String, s ≠ "" →
        Dict.getV [("Username", .vStr "a@b.c"), ("One-time_password", .vStr "pw1")] "One-time_password" = .vStr s →
        password = s) ∧
      (truthy (Dict.getV [("Username", .vStr "a@b.c"), ("One-time_password", .vStr "pw1")] "One-time_password") = false →
        password = "") ∧
      ((save_user_to_file .ok
          [("Username", .vStr "a@b.c"), ("One-time_password", .vStr "pw1")] "old\n").1 = "old\n" ∨
        (save_user_to_file .ok
          [("Username", .vStr "a@b.c"), ("One-time_password", .vStr "pw1")] "old\n").1 =
          "old\n" ++ (email ++ "----" ++ password ++ "\n")) :=
  save_user_appends_one_record
    [("Username", .vStr "a@b.c"), ("One-time_password", .vStr "pw1")] "old\n" .ok

/-- C3: an iteration in which the user is created but no one-time
password is scraped (`otp_password` stays `None`) is still treated as
a success: the result dict (whose credential field is the empty
string) is appended to `created_users` and persisted, producing the
line `email----` (empty credential) in the output file, rather than
being counted as a failure. -/
theorem otp_missing_still_recorded (ie : IterEnv) (us : List Dict) (file : String)
    (h1 : ie.createEnv.raises = false) (h2 : ie.createEnv.buttonFound = true)
    (h3 : ie.createEnv.otpScraped = none) (h4 : ie.writeOutcome = .ok) :
    ∃ d : Dict,
      registerStep ie (us, file) =
        (us ++ [d],
         file ++ (generate_random_email ie.emailSeed "gmail.com" ++ "----" ++ "" ++ "\n")) ∧
      Dict.getV d "One-time_password" = .vStr "" ∧
      Dict.getV d "success" = .vBool true := by
  obtain ⟨es, fs, ls, ce, w⟩ := ie
  obtain ⟨cr, cb, co⟩ := ce
  dsimp only at h1 h2 h3 h4
  subst h1 h2 h3 h4
  exact ⟨_, rfl, rfl, rfl⟩

/-- C3 witness: the concrete no-OTP iteration `demoIter`. -/
theorem otp_missing_still_recorded_witness :
    ∃ d : Dict,
      registerStep demoIter ([], "") =
        ([] ++ [d],
         "" ++ (generate_random_email demoIter.emailSeed "gmail.com" ++ "----" ++ "" ++ "\n")) ∧
      Dict.getV d "One-time_password" = .vStr "" ∧
      Dict.getV d "success" = .vBool true :=
  otp_missing_still_recorded demoIter [] "" rfl rfl rfl rfl

theorem pyChoice_mem {α : Type} (pool : List α) (dflt : α) (seed : Nat) (h : pool ≠ []) :
    pyChoice pool dflt seed ∈ pool := by
  have hlen : 0 < pool.length := List.length_pos.mpr h
  have hm : seed % pool.length < pool.length := Nat.mod_lt _ hlen
  rw [pyChoice, List.getD_eq_getElem pool dflt hm]
  exact List.getElem_mem hm

/-- C6: every generated identity draws its first and last name from the
fixed pools, and every generated email is a 10-character local part of
lowercase letters and digits followed by `@gmail.com`. -/
theorem generated_identity_shape (seed : Fin 10 → Nat) (i j : Nat) :
    (generate_random_name i j).1 ∈ first_names ∧
    (generate_random_name i j).2 ∈ last_names ∧
    ∃ lp : String,
      generate_random_email seed "gmail.com" = lp ++ "@" ++ "gmail.com" ∧
      lp.length = 10 ∧
      ∀ c ∈ lp.toList, c ∈ emailChars := by
  refine ⟨pyChoice_mem _ _ _ (by decide), pyChoice_mem _ _ _ (by decide),
    String.mk ((List.finRange 10).map (fun k => pyChoice emailChars 'a' (seed k))),
    rfl, by simp, ?_⟩
  intro c hc
  have hc' : c ∈ (List.finRange 10).map (fun k => pyChoice emailChars 'a' (seed k)) := hc
  rcases List.mem_map.mp hc' with ⟨k, _, rfl⟩
  exact pyChoice_mem emailChars 'a' (seed k) (by decide)

/-- C6 witness: the concrete all-zero seeds. -/
theorem generated_identity_shape_witness :
    (generate_random_name 0 0).1 ∈ first_names ∧
    (generate_random_name 0 0).2 ∈ last_names ∧
    ∃ lp : String,
      generate_random_email (fun _ => 0) "gmail.com" = lp ++ "@" ++ "gmail.com" ∧
      lp.length = 10 ∧
      ∀ c ∈ lp.toList, c ∈ emailChars :=
  generated_identity_shape (fun _ => 0) 0 0

theorem not_optionLike_ne_headless (t : String) (h : ¬ isOptionLike t = true) :
    t ≠ "--headless" := by
  intro he
  subst he
  exact h (by decide)

theorem parseTokens_headless (toks : List String) :
    ∀ (pd : Pending) (st st' : ParseSt),
      parseTokens toks pd st = some st' →
      st'.headless = (st.headless || decide ("--headless" ∈ toks)) := by
  induction toks with
  | nil =>
    intro pd st st' h
    cases pd
    case idle =>
      simp only [parseTokens] at h
      cases h
      simp
    all_goals exact Option.noConfusion h
  | cons t rest ih =>
    intro pd st st' h
    cases pd with
    | idle =>
      simp only [parseTokens] at h
      by_cases h1 : t = "--username" ∨ t = "-u"
      · rw [if_pos h1] at h
        rw [ih _ _ _ h]
        rcases h1 with rfl | rfl <;> simp [List.mem_cons]
      · rw [if_neg h1] at h
        by_cases h2 : t = "--password" ∨ t = "-p"
        · rw [if_pos h2] at h
          rw [ih _ _ _ h]
          rcases h2 with rfl | rfl <;> simp [List.mem_cons]
        · rw [if_neg h2] at h
          by_cases h3 : t = "--count" ∨ t = "-c"
          · rw [if_pos h3] at h
            rw [ih _ _ _ h]
            rcases h3 with rfl | rfl <;> simp [List.mem_cons]
          · rw [if_neg h3] at h
            by_cases h4 : t = "--headless"
            · rw [if_pos h4] at h
              subst h4
              rw [ih _ _ _ h]
              simp [List.mem_cons]
            · rw [if_neg h4] at h
              exact Option.noConfusion h
    | wantUser =>
      simp only [parseTokens] at h
      split at h
      · simp at h
      · rename_i hopt
        rw [ih _ _ _ h]
        simp [List.mem_cons, (not_optionLike_ne_headless t hopt).symm]
    | wantPass =>
      simp only [parseTokens] at h
      split at h
      · simp at h
      · rename_i hopt
        rw [ih _ _ _ h]
        simp [List.mem_cons, (not_optionLike_ne_headless t hopt).symm]
    | wantCount =>
      simp only [parseTokens] at h
      split at h
      · simp at h
      · rename_i hopt
        split at h
        · rw [ih _ _ _ h]
          simp [List.mem_cons, (not_optionLike_ne_headless t hopt).symm]
        · simp at h

theorem parseTokens_username (toks : List String) :
    ∀ (pd : Pending) (st st' : ParseSt),
      parseTokens toks pd st = some st' →
      st'.username ≠ st.username →
      ("--username" ∈ toks ∨ "-u" ∈ toks ∨ pd = .wantUser) := by
  induction toks with
  | nil =>
    intro pd st st' h hne
    cases pd
    case idle =>
      simp only [parseTokens] at h
      cases h
      exact absurd rfl hne
    all_goals exact Option.noConfusion h
  | cons t rest ih =>
    intro pd st st' h hne
    cases pd with
    | idle =>
      simp only [parseTokens] at h
      by_cases h1 : t = "--username" ∨ t = "-u"
      · rcases h1 with rfl | rfl
        · exact Or.inl (List.mem_cons_self _ _)
        · exact Or.inr (Or.inl (List.mem_cons_self _ _))
      · rw [if_neg h1] at h
        by_cases h2 : t = "--password" ∨ t = "-p"
        · rw [if_pos h2] at h
          rcases ih _ _ _ h hne with hm | hm | hpd
          · exact Or.inl (List.mem_cons_of_mem _ hm)
          · exact Or.inr (Or.inl (List.mem_cons_of_mem _ hm))
          · exact absurd hpd (by decide)
        · rw [if_neg h2] at h
          by_cases h3 : t = "--count" ∨ t = "-c"
          · rw [if_pos h3] at h
            rcases ih _ _ _ h hne with hm | hm | hpd
            · exact Or.inl (List.mem_cons_of_mem _ hm)
            · exact Or.inr (Or.inl (List.mem_cons_of_mem _ hm))
            · exact absurd hpd (by decide)
          · rw [if_neg h3] at h
            by_cases h4 : t = "--headless"
            · rw [if_pos h4] at h
              rcases ih _ _ _ h hne with hm | hm | hpd
              · exact Or.inl (List.mem_cons_of_mem _ hm)
              · exact Or.inr (Or.inl (List.mem_cons_of_mem _ hm))
              · exact absurd hpd (by decide)
            · rw [if_neg h4] at h
              exact Option.noConfusion h
    | wantUser => exact Or.inr (Or.inr rfl)
    | wantPass =>
      simp only [parseTokens] at h
      split at h
      · simp at h
      · rcases ih _ _ _ h hne with hm | hm | hpd
        · exact Or.inl (List.mem_cons_of_mem _ hm)
        · exact Or.inr (Or.inl (List.mem_cons_of_mem _ hm))
        · exact absurd hpd (by decide)
    | wantCount =>
      simp only [parseTokens] at h
      split at h
      · simp at h
      · split at h
        · rcases ih _ _ _ h hne with hm | hm | hpd
          · exact Or.inl (List.mem_cons_of_mem _ hm)
          · exact Or.inr (Or.inl (List.mem_cons_of_mem _ hm))
          · exact absurd hpd (by decide)
        · simp at h

theorem parseTokens_password (toks : List String) :
    ∀ (pd : Pending) (st st' : ParseSt),
      parseTokens toks pd st = some st' →
      st'.password ≠ st.password →
      ("--password" ∈ toks ∨ "-p" ∈ toks ∨ pd = .wantPass) := by
  induction toks with
  | nil =>
    intro pd st st' h hne
    cases pd
    case idle =>
      simp only [parseTokens] at h
      cases h
      exact absurd rfl hne
    all_goals exact Option.noConfusion h
  | cons t rest ih =>
    intro pd st st' h hne
    cases pd with
    | idle =>
      simp only [parseTokens] at h
      by_cases h1 : t = "--username" ∨ t = "-u"
      · rw [if_pos h1] at h
        rcases ih _ _ _ h hne with hm | hm | hpd
        · exact Or.inl (List.mem_cons_of_mem _ hm)
        · exact Or.inr (Or.inl (List.mem_cons_of_mem _ hm))
        · exact absurd hpd (by decide)
      · rw [if_neg h1] at h
        by_cases h2 : t = "--password" ∨ t = "-p"
        · rcases h2 with rfl | rfl
          · exact Or.inl (List.mem_cons_self _ _)
          · exact Or.inr (Or.inl (List.mem_cons_self _ _))
        · rw [if_neg h2] at h
          by_cases h3 : t = "--count" ∨ t = "-c"
          · rw [if_pos h3] at h
            rcases ih _ _ _ h hne with hm | hm | hpd
            · exact Or.inl (List.mem_cons_of_mem _ hm)
            · exact Or.inr (Or.inl (List.mem_cons_of_mem _ hm))
            · exact absurd hpd (by decide)
          · rw [if_neg h3] at h
            by_cases h4 : t = "--headless"
            · rw [if_pos h4] at h
              rcases ih _ _ _ h hne with hm | hm | hpd
              · exact Or.inl (List.mem_cons_of_mem _ hm)
              · exact Or.inr (Or.inl (List.mem_cons_of_mem _ hm))
              · exact absurd hpd (by decide)
            · rw [if_neg h4] at h
              exact Option.noConfusion h
    | wantUser =>
      simp only [parseTokens] at h
      split at h
      · simp at h
      · rcases ih _ _ _ h hne with hm | hm | hpd
        · exact Or.inl (List.mem_cons_of_mem _ hm)
        · exact Or.inr (Or.inl (List.mem_cons_of_mem _ hm))
        · exact absurd hpd (by decide)
    | wantPass => exact Or.inr (Or.inr rfl)
    | wantCount =>
      simp only [parseTokens] at h
      split at h
      · simp at h
      · split at h
        · rcases ih _ _ _ h hne with hm | hm | hpd
          · exact Or.inl (List.mem_cons_of_mem _ hm)
          · exact Or.inr (Or.inl (List.mem_cons_of_mem _ hm))
          · exact absurd hpd (by decide)
        · simp at h

theorem parseTokens_count_default (toks : List String) :
    ∀ (pd : Pending) (st st' : ParseSt),
      parseTokens toks pd st = some st' →
      "--count" ∉ toks → "-c" ∉ toks → pd ≠ .wantCount →
      st'.count = st.count := by
  induction toks with
  | nil =>
    intro pd st st' h _ _ _
    cases pd
    case idle =>
      simp only [parseTokens] at h
      cases h
      rfl
    all_goals exact Option.noConfusion h
  | cons t rest ih =>
    intro pd st st' h hc1 hc2 hpd
    have hc1' : "--count" ∉ rest := fun hm => hc1 (List.mem_cons_of_mem _ hm)
    have hc2' : "-c" ∉ rest := fun hm => hc2 (List.mem_cons_of_mem _ hm)
    cases pd with
    | idle =>
      simp only [parseTokens] at h
      by_cases h1 : t = "--username" ∨ t = "-u"
      · rw [if_pos h1] at h
        have hcnt := ih _ _ _ h hc1' hc2' (by decide)
        exact hcnt
      · rw [if_neg h1] at h
        by_cases h2 : t = "--password" ∨ t = "-p"
        · rw [if_pos h2] at h
          have hcnt := ih _ _ _ h hc1' hc2' (by decide)
          exact hcnt
        · rw [if_neg h2] at h
          by_cases h3 : t = "--count" ∨ t = "-c"
          · rcases h3 with rfl | rfl
            · exact absurd (List.mem_cons_self _ _) hc1
            · exact absurd (List.mem_cons_self _ _) hc2
          · rw [if_neg h3] at h
            by_cases h4 : t = "--headless"
            · rw [if_pos h4] at h
              have hcnt := ih _ _ _ h hc1' hc2' (by decide)
              exact hcnt
            · rw [if_neg h4] at h
              exact Option.noConfusion h
    | wantUser =>
      simp only [parseTokens] at h
      split at h
      · simp at h
      have hcnt := ih _ _ _ h hc1' hc2' (by decide)
      exact hcnt
    | wantPass =>
      simp only [parseTokens] at h
      split at h
      · simp at h
      have hcnt := ih _ _ _ h hc1' hc2' (by decide)
      exact hcnt
    | wantCount => exact absurd rfl hpd

/-- C7: the command line accepts exactly the declared flags: a
successful parse implies both `--username` / `-u` and `--password` /
`-p` were supplied (so parsing fails when either is absent), `count`
defaults to `1` when `--count` / `-c` is absent, and `headless` is set
exactly when the `--headless` switch is present. -/
theorem cli_flags_contract (toks : List String) (a : Args)
    (h : parse_args toks = some a) :
    ("--username" ∈ toks ∨ "-u" ∈ toks) ∧
    ("--password" ∈ toks ∨ "-p" ∈ toks) ∧
    ("--count" ∉ toks → "-c" ∉ toks → a.count = 1) ∧
    (a.headless = true ↔ "--headless" ∈ toks) := by
  unfold parse_args at h
  cases hp : parseTokens toks .idle ⟨none, none, none, false⟩ with
  | none =>
    rw [hp] at h
    exact Option.noConfusion h
  | some st =>
    rw [hp] at h
    dsimp only at h
    cases hu : st.username with
    | none =>
      rw [hu] at h
      cases hw : st.password with
      | none => rw [hw] at h; exact Option.noConfusion h
      | some p => rw [hw] at h; exact Option.noConfusion h
    | some u =>
      rw [hu] at h
      cases hw : st.password with
      | none => rw [hw] at h; exact Option.noConfusion h
      | some p =>
        rw [hw] at h
        cases h
        refine ⟨?_, ?_, ?_, ?_⟩
        · rcases parseTokens_username toks .idle _ _ hp (by rw [hu]; simp)
            with hm | hm | hpd
          · exact Or.inl hm
          · exact Or.inr hm
          · exact absurd hpd (by decide)
        · rcases parseTokens_password toks .idle _ _ hp (by rw [hw]; simp)
            with hm | hm | hpd
          · exact Or.inl hm
          · exact Or.inr hm
          · exact absurd hpd (by decide)
        · intro hc1 hc2
          have hcnt : st.count = none :=
            parseTokens_count_default toks .idle _ _ hp hc1 hc2 (by decide)
          simp [hcnt]
        · have hh : st.headless = decide ("--headless" ∈ toks) := by
            have := parseTokens_headless toks .idle _ _ hp
            simpa using this
          simp [hh]

/-- C7 witness: a concrete canonical command line supplying only the
two required flags. -/
theorem cli_flags_contract_witness :
    ("--username" ∈ ["--username", "admin", "--password", "pw"] ∨
      "-u" ∈ ["--username", "admin", "--password", "pw"]) ∧
    ("--password" ∈ ["--username", "admin", "--password", "pw"] ∨
      "-p" ∈ ["--username", "admin", "--password", "pw"]) ∧
    ("--count" ∉ ["--username", "admin", "--password", "pw"] →
      "-c" ∉ ["--username", "admin", "--password", "pw"] →
      (Args.mk "admin" "pw" 1 false).count = 1) ∧
    ((Args.mk "admin" "pw" 1 false).headless = true ↔
      "--headless" ∈ ["--username", "admin", "--password", "pw"]) :=
  cli_flags_contract ["--username", "admin", "--password", "pw"]
    ⟨"admin", "pw", 1, false⟩ (by decide)

end AwsSsoRegister
